import Mathlib

/-!
Verification of the tapmon collector daemon (src/cmd/daemon.go) against its
natural-language specification.

The daemon polls Tapo smart plugs for power readings (CollectEnergyUsage,
one goroutine per device), pushes each reading as a Prometheus time series
into a shared channel, and a single aggregator goroutine (RemoteWrite)
batches and transmits them to a Prometheus remote-write endpoint on a flush
timer.  We shallow-embed the per-tick bodies of both loops as pure step
functions, driven by the environment (device responses, marshal and send
results delivered as event parameters), and the select loop of the
aggregator as a fold over an event trace.

Semantics of external calls used by the embedding:
  - logrus log.Fatal / log.Fatalf logs and then calls os.Exit(1): statements
    written after such a call never execute.
  - cobra.CheckErr with a non-nil argument prints the error and calls
    os.Exit(1).
  - a Go type assertion v.(T) on a nil interface value panics, and indexing
    a nil map yields the zero (nil) interface value.
-/

/-- prompb.Label: a name/value pair attached to a time series. -/
structure Label where
  name : String
  value : String
deriving DecidableEq, Repr

/-- prompb.Sample: a timestamp (Unix milliseconds) and a numeric value.
The Go value is a float64; it is only ever moved, never computed with,
so we model it as a rational. -/
structure Sample where
  timestamp : Int
  value : ℚ
deriving DecidableEq, Repr

/-- prompb.TimeSeries: labels plus samples, as built at daemon.go lines
221-230. -/
structure TimeSeries where
  labels : List Label
  samples : List Sample
deriving DecidableEq, Repr

/-- The nested result object of a GetEnergyUsage response: the code reads
only its current_power field (daemon.go line 220).  The field is an Option
because a Go map lookup of a missing key yields nil, and the following
float64 type assertion then panics. -/
structure EnergyResult where
  current_power : Option ℚ
deriving DecidableEq, Repr

/-- A GetEnergyUsage response map.  The code reads r with the keys
error_code (line 217, compared against float64 zero) and result (line 220,
asserted to a map).  Missing keys are nil, hence Options. -/
structure EnergyResp where
  error_code : Option ℚ
  result : Option EnergyResult
deriving DecidableEq, Repr

/-- Outcome of one poller tick body (daemon.go lines 212-230). -/
inductive TickOutcome
  /-- A nil type assertion panicked, crashing the process. -/
  | panicked
  /-- Exactly one TimeSeries was sent on the metrics channel. -/
  | emit (ts : TimeSeries)
deriving DecidableEq, Repr

/-- The body of the ticker case of CollectEnergyUsage (daemon.go lines
212-230).  Arguments: the device ip (c.d.Ip), the current time in Unix
milliseconds (time.Now of line 227), whether GetEnergyUsage returned a
non-nil error, and the response map r (none models a nil map, as returned
together with an error when the device is unreachable).

The code logs a warning when err is non-nil (line 215) and when the
error_code entry differs from float64 zero (line 218), but neither branch
skips the rest of the body: control falls through to line 220 in every
case.  There, r at key result is asserted to a map and its current_power
entry to a float64; if r is nil, the result entry is missing, or
current_power is missing, the asserted value is nil and the assertion
panics.  Otherwise one TimeSeries is pushed to the metrics channel. -/
def collectEnergyUsageTick (ip : String) (now : Int) (err : Bool)
    (r : Option EnergyResp) : TickOutcome :=
  -- line 215: if err then log.Warning (no control-flow effect)
  -- line 218: if error_code differs from 0 then log.Warning (no effect)
  match r with
  | none => .panicked
  | some resp =>
    match resp.result with
    | none => .panicked
    | some res =>
      match res.current_power with
      | none => .panicked
      | some v =>
        .emit { labels := [⟨"ip", ip⟩, ⟨"__name__", "current_power"⟩],
                samples := [{ timestamp := now, value := v }] }

/-- Result classification of the remote write client's Store call
(daemon.go lines 179-186): recoverable errors are remote.RecoverableError,
everything else non-nil is fatal. -/
inductive SendResult
  | success
  | recoverable
  | fatal
deriving DecidableEq, Repr

/-- One event consumed by the RemoteWrite select loop (daemon.go lines
152-190).  A flushTick carries the environment's answers for this tick:
whether proto.Marshal succeeds and how the Store call would end. -/
inductive AggEvent
  /-- A receive on the stop channel; ok is false exactly when the channel
  is closed. -/
  | stopRecv (ok : Bool)
  /-- A time series received on the metrics channel. -/
  | arrive (ts : TimeSeries)
  /-- A flush-timer tick. -/
  | flushTick (marshalOk : Bool) (send : SendResult)
deriving DecidableEq, Repr

/-- Observable outcome of one iteration of the RemoteWrite select loop. -/
inductive AggOutput
  /-- Loop continues with no external effect beyond logging. -/
  | none
  /-- A successful Store of this batch (line 188). -/
  | pushed (batch : List TimeSeries)
  /-- Stop channel closed: ticker stopped, wg.Done called, function
  returns (lines 156-159). -/
  | taskDone
  /-- close(stop) executed.  The source writes close(stop) at lines 176
  and 185, but both occurrences follow a log.Fatalf, which has already
  exited the process; this output is therefore never produced. -/
  | stopClosed
  /-- log.Fatalf ran: the process exits with status 1 at once (lines 174
  and 184); the close(stop) and continue written after it are dead code. -/
  | processExit
deriving DecidableEq, Repr

/-- One iteration of the RemoteWrite select loop (daemon.go lines 152-190)
on the accumulated batch tss.  Returns the new batch and the observable
outcome. -/
def remoteWriteStep (tss : List TimeSeries) (e : AggEvent) :
    List TimeSeries × AggOutput :=
  match e with
  | .stopRecv true => (tss, .none)          -- lines 154-160: body runs only when not ok
  | .stopRecv false => (tss, .taskDone)     -- lines 156-159
  | .arrive ts => (tss ++ [ts], .none)      -- line 164: tss = append(tss, ts)
  | .flushTick marshalOk send =>
    match tss with
    | [] => (tss, .none)                    -- lines 168-170: empty batch, continue
    | _ :: _ =>
      if marshalOk then
        match send with
        | .recoverable => (tss, .none)      -- lines 180-182: log.Infof; continue (batch kept)
        | .fatal => (tss, .processExit)     -- line 184: log.Fatalf exits the process
        | .success => ([], .pushed tss)     -- lines 188-189: log; tss reset to empty
      else (tss, .processExit)              -- line 174: log.Fatalf exits the process

/-- How a run of the RemoteWrite loop over a finite event trace ended. -/
inductive RunEnd
  /-- Trace exhausted with the loop still running. -/
  | running
  /-- Returned via the closed stop channel (wg.Done was called). -/
  | stoppedClean
  /-- Process exited via log.Fatalf. -/
  | exitedFatal
deriving DecidableEq, Repr

/-- Result of running the RemoteWrite loop over an event trace: the batches
successfully transmitted, in order; the batch held (or abandoned) at the
end; and how the run ended. -/
structure RunResult where
  transmitted : List (List TimeSeries)
  batch : List TimeSeries
  ended : RunEnd
deriving DecidableEq, Repr

/-- The RemoteWrite select loop (daemon.go lines 152-190) folded over a
finite trace of events, starting from accumulated batch tss.  Events after
a return or a process exit are not consumed. -/
def remoteWriteRun (tss : List TimeSeries) : List AggEvent → RunResult
  | [] => ⟨[], tss, .running⟩
  | e :: es =>
    match remoteWriteStep tss e with
    | (tss', .none) => remoteWriteRun tss' es
    | (tss', .pushed b) =>
      let r := remoteWriteRun tss' es
      ⟨b :: r.transmitted, r.batch, r.ended⟩
    | (tss', .taskDone) => ⟨[], tss', .stoppedClean⟩
    | (tss', .stopClosed) => ⟨[], tss', .running⟩  -- never produced
    | (tss', .processExit) => ⟨[], tss', .exitedFatal⟩

/-- The time series that arrived on the metrics channel in a trace, in
order. -/
def arrivedSeries (es : List AggEvent) : List TimeSeries :=
  es.filterMap fun e =>
    match e with
    | .arrive ts => some ts
    | _ => none

/-- An event is healthy when it is not a shutdown and any flush tick on it
marshals and sends successfully. -/
def healthyEvent : AggEvent → Bool
  | .stopRecv ok => ok
  | .arrive _ => true
  | .flushTick m s => m && (match s with | .success => true | _ => false)

/-- A trace is healthy when all its events are. -/
def healthyEvents (es : List AggEvent) : Bool :=
  es.all healthyEvent

/-- The trace ends with a flush-timer tick. -/
def lastIsFlush (es : List AggEvent) : Bool :=
  match es.getLast? with
  | some (.flushTick _ _) => true
  | _ => false

/-- A configured device (daemon.go lines 33-37). -/
structure Device where
  ip : String
  username : String
  password : String
deriving DecidableEq, Repr

/-- The startup connectivity loop of daemonCmd (daemon.go lines 76-84):
for each configured device in order, tapo.NewTapo is attempted; on the
first failure cobra.CheckErr exits the process with status 1, otherwise the
client is appended to cs.  The reach predicate is the environment's answer
for NewTapo on each device. -/
def connectAll (reach : Device → Bool) : List Device → Option (List Device)
  | [] => some []
  | d :: ds =>
    if reach d then (connectAll reach ds).map fun cs => d :: cs
    else none

/-- How daemonCmd's startup phase (daemon.go lines 72-98) ends. -/
inductive StartupOutcome
  /-- cobra.CheckErr received a non-nil error and exited the process with
  status 1 before any goroutine was spawned. -/
  | exitStartupFailure
  /-- Startup succeeded: one CollectEnergyUsage goroutine is spawned per
  client, plus the RemoteWrite goroutine, each preceded by wg.Add of 1. -/
  | started (clients : List Device)
deriving DecidableEq, Repr

/-- The startup phase of daemonCmd (daemon.go lines 72-98): reject an
empty device list (lines 72-74), then verify connectivity to every device
synchronously (lines 76-84); only afterwards are the poller and aggregator
goroutines spawned (lines 91-98). -/
def daemonStartup (devices : List Device) (reach : Device → Bool) :
    StartupOutcome :=
  if devices.isEmpty then .exitStartupFailure
  else
    match connectAll reach devices with
    | none => .exitStartupFailure
    | some cs => .started cs

/-- Number of goroutines spawned by daemonCmd for a startup outcome: one
per client (line 94) plus the RemoteWrite goroutine (line 98); none when
startup failed. -/
def tasksStarted : StartupOutcome → Nat
  | .exitStartupFailure => 0
  | .started cs => cs.length + 1

/-- Process exit code implied by a startup outcome: cobra.CheckErr exits
with status 1 on failure; none means the process keeps running. -/
def startupExitCode : StartupOutcome → Option Nat
  | .exitStartupFailure => some 1
  | .started _ => none

/-- How the initialisation prologue of RemoteWrite (daemon.go lines
120-144) ends. -/
inductive RWInitOutcome
  /-- log.Fatal ran, exiting the process with status 1.  The two recorded
  flags state whether wg.Done and close(stop) had executed by then: the
  source calls neither before log.Fatal, and the close(stop) and return
  written after it are dead code, so both flags are false on every such
  path. -/
  | fatalExit (wgDoneCalled : Bool) (stopClosed : Bool)
  /-- Endpoint parsed and write client built; the select loop is entered. -/
  | ready
deriving DecidableEq, Repr

/-- The initialisation prologue of RemoteWrite (daemon.go lines 120-144):
url.Parse of the endpoint (lines 120-124), then remote.NewWriteClient
(lines 126-144).  Each failure path is log.Fatal followed by unreachable
close(stop) and return statements. -/
def remoteWriteInit (parseOk : Bool) (clientOk : Bool) : RWInitOutcome :=
  if parseOk then
    if clientOk then .ready
    else .fatalExit false false
  else .fatalExit false false

/-- Process exit code implied by the RemoteWrite prologue: log.Fatal exits
with status 1; none means the loop is entered. -/
def rwInitExitCode (parseOk clientOk : Bool) : Option Nat :=
  match remoteWriteInit parseOk clientOk with
  | .fatalExit _ _ => some 1
  | .ready => none

/-- Exit code of the whole process as driven by Execute (daemon.go lines
106-108): cobra.CheckErr of the RunE result exits 1 on a non-nil error and
is a no-op on nil, in which case the process ends normally with status 0.
RunE returns nil after wg.Wait unblocks (lines 100-102). -/
def processExitCode (runEErr : Option String) : Nat :=
  match runEErr with
  | none => 0
  | some _ => 1

/-- A fixed concrete device. -/
def devA : Device := { ip := "10.0.0.1", username := "u", password := "p" }

/-- A fixed concrete time series, as a poller for a device at 10.0.0.1
would produce. -/
def tsA : TimeSeries :=
  { labels := [⟨"ip", "10.0.0.1"⟩, ⟨"__name__", "current_power"⟩],
    samples := [{ timestamp := 1000, value := 42 }] }

/-- A second concrete time series, for a device at 10.0.0.2. -/
def tsB : TimeSeries :=
  { labels := [⟨"ip", "10.0.0.2"⟩, ⟨"__name__", "current_power"⟩],
    samples := [{ timestamp := 2000, value := 7 }] }

/-- C1 counterexample: the claim says a recoverable sink error on a
non-empty batch clears the batch and its samples never appear in any later
transmitted batch.  On the trace in which tsA arrives and the first flush
gets a recoverable error, the batch afterwards is still [tsA] (not
cleared), and when the next flush succeeds, that very sample is
transmitted. -/
theorem C1_counterexample :
    (remoteWriteRun []
        [AggEvent.arrive tsA,
         AggEvent.flushTick true SendResult.recoverable]).batch = [tsA]
  ∧ (remoteWriteRun []
        [AggEvent.arrive tsA,
         AggEvent.flushTick true SendResult.recoverable,
         AggEvent.flushTick true SendResult.success]).transmitted
      = [[tsA]] :=
  ⟨rfl, rfl⟩

/-- C1 (amended): on a flush tick at which the accumulated batch is
non-empty and the sink returns a recoverable error, the aggregator logs the
error and continues with the batch unchanged: the samples are retained, not
dropped, and are included in the next flush attempt. -/
theorem C1_recoverable_retains_batch (tss : List TimeSeries)
    (h : tss ≠ []) :
    remoteWriteStep tss (AggEvent.flushTick true SendResult.recoverable)
      = (tss, AggOutput.none) := by
  cases tss with
  | nil => exact absurd rfl h
  | cons t ts' => rfl

/-- C1 witness: the amended statement at the concrete batch [tsA]. -/
theorem C1_recoverable_retains_batch_witness :
    remoteWriteStep [tsA] (AggEvent.flushTick true SendResult.recoverable)
      = ([tsA], AggOutput.none) :=
  C1_recoverable_retains_batch [tsA] (List.cons_ne_nil _ _)

/-- C2: the claim says that on a failed poll, or a response with a
non-zero device error code, the poller logs, emits no sample and does not
crash.  The code only logs: control falls through in both cases.  With the
nil response map of an unreachable device the type assertion at daemon.go
line 220 panics, crashing the poller; and with a response whose error code
is non-zero but whose result is present, a sample is emitted anyway. -/
theorem C2_poll_error_falls_through :
    collectEnergyUsageTick "10.0.0.1" 1000 true none = TickOutcome.panicked
  ∧ collectEnergyUsageTick "10.0.0.1" 1000 false
      (some { error_code := some 1,
              result := some { current_power := some 42 } })
      = TickOutcome.emit tsA :=
  ⟨rfl, rfl⟩

/-- C3: the claim says a fatal sink error or a marshal failure triggers
the shared shutdown signal and a cooperative wind-down.  The code calls
log.Fatalf, which exits the process immediately with status 1; the
close(stop) written after it is dead code, so the aggregator step never
closes the stop channel and never reaches its wg.Done return path other
than through the stop channel itself. -/
theorem C3_fatal_error_exits_process :
    (remoteWriteStep [tsA] (AggEvent.flushTick true SendResult.fatal)).2
      = AggOutput.processExit
  ∧ (remoteWriteStep [tsA] (AggEvent.flushTick false SendResult.success)).2
      = AggOutput.processExit
  ∧ ∀ (tss : List TimeSeries) (e : AggEvent),
      (remoteWriteStep tss e).2 ≠ AggOutput.stopClosed := by
  refine ⟨rfl, rfl, ?_⟩
  intro tss e
  cases e with
  | stopRecv ok => cases ok <;> simp [remoteWriteStep]
  | arrive ts => simp [remoteWriteStep]
  | flushTick m s =>
    cases tss with
    | nil => simp [remoteWriteStep]
    | cons t ts' =>
      cases m <;> cases s <;> simp [remoteWriteStep]

/-- C4 counterexample: the claim says a successful flush transmits exactly
the samples accumulated between the two consecutive flush ticks.  Here tsA
arrives, a flush fails recoverably, tsB arrives, and the next flush
succeeds: only tsB accumulated between the two ticks, yet the transmitted
batch is [tsA, tsB]. -/
theorem C4_counterexample :
    (remoteWriteRun []
        [AggEvent.arrive tsA,
         AggEvent.flushTick true SendResult.recoverable,
         AggEvent.arrive tsB,
         AggEvent.flushTick true SendResult.success]).transmitted
      = [[tsA, tsB]]
  ∧ [tsA, tsB] ≠ [tsB] := by
  refine ⟨rfl, ?_⟩
  decide

/-- Pushing a list of arrivals into the loop appends them to the batch in
order. -/
theorem run_map_arrive (bs : List TimeSeries) :
    ∀ (tss : List TimeSeries) (es : List AggEvent),
      remoteWriteRun tss (bs.map AggEvent.arrive ++ es)
        = remoteWriteRun (tss ++ bs) es := by
  induction bs with
  | nil => intro tss es; simp
  | cons b bs ih =>
    intro tss es
    simpa [remoteWriteRun, remoteWriteStep] using ih (tss ++ [b]) es

/-- C4 (amended): starting from an empty batch (as after a successful or
empty flush), when the samples bs accumulate and the next flush tick
marshals and sends successfully, exactly those samples are transmitted as
one batch in accumulation order and the batch is reset to empty.  (When an
intervening flush failed recoverably, the retained samples are transmitted
in addition, as the counterexample shows.) -/
theorem C4_flush_from_empty (bs : List TimeSeries) (h : bs ≠ []) :
    remoteWriteRun []
        (bs.map AggEvent.arrive ++ [AggEvent.flushTick true SendResult.success])
      = ⟨[bs], [], RunEnd.running⟩ := by
  rw [run_map_arrive]
  cases bs with
  | nil => exact absurd rfl h
  | cons b bs' => rfl

/-- C4 witness: the amended statement at the concrete accumulation [tsB]. -/
theorem C4_flush_from_empty_witness :
    remoteWriteRun []
        ([tsB].map AggEvent.arrive ++ [AggEvent.flushTick true SendResult.success])
      = ⟨[[tsB]], [], RunEnd.running⟩ :=
  C4_flush_from_empty [tsB] (List.cons_ne_nil _ _)

/-- C8: a flush tick on an empty batch is a no-op: no serialization and no
transmission is attempted (the outcome is the same whatever the marshal
and send environment would answer), no error is produced, and the batch is
unchanged. -/
theorem C8_empty_flush_noop (marshalOk : Bool) (send : SendResult) :
    remoteWriteStep [] (AggEvent.flushTick marshalOk send)
      = ([], AggOutput.none) :=
  rfl

/-- C9: a successful poll of a device (no fetch error, zero device error
code, current_power present with value v) produces exactly one outcome: a
single time series labeled with the device address under ip and with
metric name current_power, carrying the single sample with the
construction-time timestamp and value v, pushed once to the intake. -/
theorem C9_successful_poll (ip : String) (now : Int) (v : ℚ) :
    collectEnergyUsageTick ip now false
        (some { error_code := some 0,
                result := some { current_power := some v } })
      = TickOutcome.emit
          { labels := [⟨"ip", ip⟩, ⟨"__name__", "current_power"⟩],
            samples := [{ timestamp := now, value := v }] } :=
  rfl

/-- C10: the claim says every task deregisters from the barrier exactly
once on every exit path, including error paths.  RemoteWrite's two
initialisation error paths (endpoint parse failure, write-client creation
failure) terminate the task without any wg.Done: log.Fatal exits the
process first, and even the unreachable return statements written after it
are not preceded by a wg.Done call. -/
theorem C10_error_paths_skip_done :
    remoteWriteInit false true = RWInitOutcome.fatalExit false false
  ∧ remoteWriteInit true false = RWInitOutcome.fatalExit false false :=
  ⟨rfl, rfl⟩

/-- Over any trace, the samples in the transmitted batches plus the batch
still held never exceed the initial batch plus the arrivals (counted per
time series): the loop never duplicates a series. -/
theorem run_count_bound (ts : TimeSeries) :
    ∀ (es : List AggEvent) (tss : List TimeSeries),
      (remoteWriteRun tss es).transmitted.flatten.count ts
          + (remoteWriteRun tss es).batch.count ts
        ≤ tss.count ts + (arrivedSeries es).count ts := by
  intro es
  induction es with
  | nil => intro tss; simp [remoteWriteRun, arrivedSeries]
  | cons e es ih =>
    intro tss
    cases e with
    | stopRecv ok =>
      cases ok with
      | false => simp [remoteWriteRun, remoteWriteStep, arrivedSeries]
      | true =>
        simpa [remoteWriteRun, remoteWriteStep, arrivedSeries] using ih tss
    | arrive t =>
      have h := ih (tss ++ [t])
      simp [remoteWriteRun, remoteWriteStep, arrivedSeries,
        List.count_append, List.count_cons] at h ⊢
      omega
    | flushTick m s =>
      cases tss with
      | nil =>
        simpa [remoteWriteRun, remoteWriteStep, arrivedSeries] using ih []
      | cons t ts' =>
        cases m with
        | false => simp [remoteWriteRun, remoteWriteStep, arrivedSeries]
        | true =>
          cases s with
          | success =>
            have h := ih []
            simp [remoteWriteRun, remoteWriteStep, arrivedSeries,
              List.count_append, List.count_cons] at h ⊢
            omega
          | recoverable =>
            simpa [remoteWriteRun, remoteWriteStep, arrivedSeries]
              using ih (t :: ts')
          | fatal => simp [remoteWriteRun, remoteWriteStep, arrivedSeries]

/-- Over a healthy trace (no shutdown, every flush marshals and sends
successfully), the transmitted batches followed by the held batch are
exactly the initial batch followed by the arrivals, in order. -/
theorem run_conservation :
    ∀ (es : List AggEvent) (tss : List TimeSeries),
      healthyEvents es = true →
      (remoteWriteRun tss es).transmitted.flatten ++ (remoteWriteRun tss es).batch
        = tss ++ arrivedSeries es := by
  intro es
  induction es with
  | nil => intro tss _; simp [remoteWriteRun, arrivedSeries]
  | cons e es ih =>
    intro tss h
    rw [healthyEvents, List.all_cons, Bool.and_eq_true] at h
    obtain ⟨h1, h2⟩ := h
    cases e with
    | stopRecv ok =>
      cases ok with
      | false => simp [healthyEvent] at h1
      | true =>
        simpa [remoteWriteRun, remoteWriteStep, arrivedSeries] using ih tss h2
    | arrive t =>
      have h := ih (tss ++ [t]) h2
      simp [remoteWriteRun, remoteWriteStep, arrivedSeries] at h ⊢
      simpa [List.append_assoc] using h
    | flushTick m s =>
      cases m with
      | false => simp [healthyEvent] at h1
      | true =>
        cases s with
        | recoverable => simp [healthyEvent] at h1
        | fatal => simp [healthyEvent] at h1
        | success =>
          cases tss with
          | nil =>
            simpa [remoteWriteRun, remoteWriteStep, arrivedSeries] using ih [] h2
          | cons t ts' =>
            have h := ih [] h2
            simp [remoteWriteRun, remoteWriteStep, arrivedSeries] at h ⊢
            simp [h]

/-- Over a healthy trace whose last event is a flush tick, the loop ends
with an empty batch. -/
theorem run_batch_empty_of_last_flush :
    ∀ (es : List AggEvent) (tss : List TimeSeries),
      healthyEvents es = true → lastIsFlush es = true →
      (remoteWriteRun tss es).batch = [] := by
  intro es
  induction es with
  | nil => intro tss _ hl; simp [lastIsFlush] at hl
  | cons e es ih =>
    intro tss hh hl
    rw [healthyEvents, List.all_cons, Bool.and_eq_true] at hh
    obtain ⟨h1, h2⟩ := hh
    cases es with
    | nil =>
      cases e with
      | stopRecv ok => simp [lastIsFlush, List.getLast?] at hl
      | arrive t => simp [lastIsFlush, List.getLast?] at hl
      | flushTick m s =>
        cases m with
        | false => simp [healthyEvent] at h1
        | true =>
          cases s with
          | recoverable => simp [healthyEvent] at h1
          | fatal => simp [healthyEvent] at h1
          | success =>
            cases tss with
            | nil => rfl
            | cons t ts' => rfl
    | cons e2 es2 =>
      have hl' : lastIsFlush (e2 :: es2) = true := by
        rw [lastIsFlush] at hl ⊢
        rwa [List.getLast?_cons_cons] at hl
      have hh' : healthyEvents (e2 :: es2) = true := h2
      cases e with
      | stopRecv ok =>
        cases ok with
        | false => simp [healthyEvent] at h1
        | true =>
          simpa [remoteWriteRun, remoteWriteStep]
            using ih tss hh' hl'
      | arrive t =>
        simpa [remoteWriteRun, remoteWriteStep]
          using ih (tss ++ [t]) hh' hl'
      | flushTick m s =>
        cases m with
        | false => simp [healthyEvent] at h1
        | true =>
          cases s with
          | recoverable => simp [healthyEvent] at h1
          | fatal => simp [healthyEvent] at h1
          | success =>
            cases tss with
            | nil =>
              simpa [remoteWriteRun, remoteWriteStep]
                using ih [] hh' hl'
            | cons t ts' =>
              simpa [remoteWriteRun, remoteWriteStep]
                using ih [] hh' hl'

/-- C5: counting per time series, the batches the aggregator successfully
transmits over any trace never contain a series more often than it arrived
(at most once per production, never transmitted twice); and over a healthy
trace (no send errors, no shutdown) nothing is lost: the transmitted
batches plus the still-held batch are exactly the arrivals in order, and
if the trace ends on a flush tick every arrived series sits in exactly one
transmitted batch. -/
theorem C5_sample_delivery (tss : List TimeSeries) (es : List AggEvent)
    (ts : TimeSeries) :
    ((remoteWriteRun tss es).transmitted.flatten.count ts
        ≤ tss.count ts + (arrivedSeries es).count ts)
  ∧ (healthyEvents es = true →
      (remoteWriteRun tss es).transmitted.flatten ++ (remoteWriteRun tss es).batch
        = tss ++ arrivedSeries es)
  ∧ (healthyEvents es = true → lastIsFlush es = true →
      (remoteWriteRun tss es).transmitted.flatten = tss ++ arrivedSeries es) := by
  refine ⟨?_, ?_, ?_⟩
  · have h := run_count_bound ts es tss
    omega
  · intro hh
    exact run_conservation es tss hh
  · intro hh hl
    have h := run_conservation es tss hh
    rw [run_batch_empty_of_last_flush es tss hh hl, List.append_nil] at h
    exact h

/-- C5 witness: the delivery statement on the concrete healthy trace in
which tsA arrives and the following flush succeeds. -/
theorem C5_sample_delivery_witness :
    ((remoteWriteRun []
        [AggEvent.arrive tsA,
         AggEvent.flushTick true SendResult.success]).transmitted.flatten.count tsA
      ≤ List.count tsA []
          + (arrivedSeries
              [AggEvent.arrive tsA,
               AggEvent.flushTick true SendResult.success]).count tsA)
  ∧ (remoteWriteRun []
        [AggEvent.arrive tsA,
         AggEvent.flushTick true SendResult.success]).transmitted.flatten
      = [] ++ arrivedSeries
          [AggEvent.arrive tsA, AggEvent.flushTick true SendResult.success] := by
  have h := C5_sample_delivery []
    [AggEvent.arrive tsA, AggEvent.flushTick true SendResult.success] tsA
  exact ⟨h.1, h.2.2 rfl rfl⟩

/-- A device is unreachable in the list exactly when the connectivity loop
fails. -/
theorem connectAll_eq_none_iff (reach : Device → Bool) :
    ∀ (ds : List Device),
      connectAll reach ds = none ↔ ∃ d ∈ ds, reach d = false := by
  intro ds
  induction ds with
  | nil => simp [connectAll]
  | cons d ds ih =>
    by_cases hd : reach d = true
    · simp only [connectAll, hd, if_true]
      constructor
      · intro h
        rcases (ih.mp (by
          cases hc : connectAll reach ds with
          | none => rfl
          | some cs => rw [hc] at h; simp at h)) with ⟨d', hd', hr⟩
        exact ⟨d', List.mem_cons_of_mem _ hd', hr⟩
      · intro ⟨d', hd', hr⟩
        rcases List.mem_cons.mp hd' with h | h
        · subst h; rw [hd] at hr; cases hr
        · rw [ih.mpr ⟨d', h, hr⟩]; rfl
    · simp only [Bool.not_eq_true] at hd
      simp [connectAll, hd]

/-- When the connectivity loop succeeds, it returns exactly the configured
device list, and every device in it is reachable. -/
theorem connectAll_eq_some (reach : Device → Bool) :
    ∀ (ds cs : List Device), connectAll reach ds = some cs →
      cs = ds ∧ ∀ d ∈ ds, reach d = true := by
  intro ds
  induction ds with
  | nil =>
    intro cs h
    simp [connectAll] at h
    subst h
    exact ⟨rfl, by simp⟩
  | cons d ds ih =>
    intro cs h
    by_cases hd : reach d = true
    · simp only [connectAll, hd, if_true] at h
      cases hc : connectAll reach ds with
      | none => rw [hc] at h; simp at h
      | some cs' =>
        rw [hc] at h
        have h' : some (d :: cs') = some cs := h
        have hcs : d :: cs' = cs := by injection h'
        obtain ⟨h1, h2⟩ := ih cs' hc
        subst h1
        refine ⟨hcs.symm, ?_⟩
        intro d' hd'
        rcases List.mem_cons.mp hd' with he | he
        · subst he; exact hd
        · exact h2 d' he
    · simp only [Bool.not_eq_true] at hd
      simp [connectAll, hd] at h

/-- C7: the process exits with status 1 exactly on the startup failures
(no devices configured, or some device unreachable at startup); when
startup instead succeeds, every configured device passed the synchronous
connectivity check performed before any goroutine is spawned, and the
spawned clients are exactly the configured devices; a malformed sink
endpoint or a write-client failure also exits the process with status 1;
no goroutines exist after a startup failure; and a clean shutdown (RunE
returning nil after the barrier unblocks) exits with status 0. -/
theorem C7_exit_codes (devices : List Device) (reach : Device → Bool) :
    (startupExitCode (daemonStartup devices reach) = some 1
        ↔ devices = [] ∨ ∃ d ∈ devices, reach d = false)
  ∧ (∀ cs, daemonStartup devices reach = StartupOutcome.started cs →
        cs = devices ∧ ∀ d ∈ devices, reach d = true)
  ∧ tasksStarted StartupOutcome.exitStartupFailure = 0
  ∧ rwInitExitCode false true = some 1
  ∧ rwInitExitCode true false = some 1
  ∧ processExitCode none = 0 := by
  refine ⟨?_, ?_, rfl, rfl, rfl, rfl⟩
  · by_cases hdev : devices.isEmpty = true
    · rw [List.isEmpty_iff] at hdev
      subst hdev
      simp [daemonStartup, startupExitCode]
    · have hne : devices ≠ [] := by
        intro h
        rw [h] at hdev
        exact hdev rfl
      cases hc : connectAll reach devices with
      | none =>
        rw [daemonStartup, if_neg hdev, hc]
        simp only [startupExitCode]
        constructor
        · intro _
          exact Or.inr ((connectAll_eq_none_iff reach devices).mp hc)
        · intro _
          trivial
      | some cs =>
        rw [daemonStartup, if_neg hdev, hc]
        simp only [startupExitCode]
        constructor
        · intro h
          exact Option.noConfusion h
        · intro h
          rcases h with h | h
          · exact absurd h hne
          · have hn := (connectAll_eq_none_iff reach devices).mpr h
            rw [hc] at hn
            exact Option.noConfusion hn
  · intro cs h
    by_cases hdev : devices.isEmpty = true
    · rw [daemonStartup, if_pos hdev] at h
      exact StartupOutcome.noConfusion h
    · cases hc : connectAll reach devices with
      | none =>
        rw [daemonStartup, if_neg hdev, hc] at h
        exact StartupOutcome.noConfusion h
      | some cs' =>
        rw [daemonStartup, if_neg hdev, hc] at h
        have hcc : cs' = cs := by injection h
        subst hcc
        exact connectAll_eq_some reach devices cs' hc

/-- C7 witness: a startup with no devices exits with status 1, and a
startup with the single reachable device devA starts clients exactly for
the configured devices, all verified reachable. -/
theorem C7_exit_codes_witness :
    startupExitCode (daemonStartup [] fun _ => true) = some 1
  ∧ ([devA] = [devA] ∧ ∀ d ∈ [devA], (fun _ => true) d = true) :=
  ⟨(C7_exit_codes [] fun _ => true).1.mpr (Or.inl rfl),
   (C7_exit_codes [devA] fun _ => true).2.1 [devA] rfl⟩
